import Mathlib

/-!
Verification of the perceptor-scanner polling agent
(src/pkg/scanner/scanner.go).

The Go file is shallowly embedded as pure Lean functions.  Effects are
made explicit:

* the process environment is a map `String → Option String`;
* every HTTP POST the agent issues is driven by an oracle value
  (`PostOutcome`) describing what the network did for that attempt, and
  emits events (`Event`) recording the attempt, the metrics calls
  (`recordScannerError`, `recordHTTPStats`) and the external-collaborator
  invocations;
* the external collaborators that live outside this repository
  (`downloadScanClient`, `NewHubScanClient`, `json.Marshal`,
  `json.Unmarshal`) are supplied as function-valued fields of `ScanDeps`,
  quantified over in the theorems;
* the unbounded retry loop of `finishScan` is modelled by structural
  recursion over the (finite) list of oracle responses supplied to it;
  exhausting the list without observing a 200 yields the distinguished
  outcome `stillLooping`, meaning the Go loop would still be running.

`os.Setenv` is modelled as a total update of the environment map: the
only key the code ever writes is the fixed, well-formed name
`BD_HUB_PASSWORD`, for which POSIX `setenv` cannot fail except on memory
exhaustion, which is outside this model.
-/

namespace PerceptorScanner

/-- `api.ImageSpec`: identifies one scannable artifact (field names from
the api package / spec section 6). -/
structure ImageSpec where
  repository : String
  sha : String
  hubURL : String
  hubProjectName : String
  hubProjectVersionName : String
  hubScanName : String
  deriving DecidableEq, Repr

/-- `api.NextImage`: the decoded body of a next-image response; the
embedded ImageSpec pointer may be nil. -/
structure NextImage where
  imageSpec : Option ImageSpec
  deriving DecidableEq, Repr

/-- `api.FinishedScanClientJob`: an ImageSpec paired with an error string
(empty string on success). -/
structure FinishedScanClientJob where
  err : String
  imageSpec : ImageSpec
  deriving DecidableEq, Repr

/-- The scan-job descriptor built by `NewScanJob` from the six fields of
the ImageSpec (spec section 4.4; the constructor itself lives outside
this repository and just aggregates its arguments). -/
structure ScanJob where
  repository : String
  sha : String
  hubURL : String
  hubProjectName : String
  hubProjectVersionName : String
  hubScanName : String
  deriving DecidableEq, Repr

/-- `NewScanJob(repository, sha, hubURL, hubProjectName,
hubProjectVersionName, hubScanName)`. -/
def NewScanJob (repository sha hubURL hubProjectName hubProjectVersionName hubScanName : String) : ScanJob :=
  ⟨repository, sha, hubURL, hubProjectName, hubProjectVersionName, hubScanName⟩

/-- The Go error-to-string step of `requestAndRunScanJob`:
`errorString` is empty for a nil error and `err.Error()` otherwise. -/
def errString : Option String → String
  | none => ""
  | some msg => msg

/-- The scan job `requestAndRunScanJob` builds from an image spec. -/
def jobOf (image : ImageSpec) : ScanJob :=
  NewScanJob image.repository image.sha image.hubURL
    image.hubProjectName image.hubProjectVersionName image.hubScanName

/-- `ScanClientInterface`: anything that can execute a scan job.
`scan job = none` models a nil error from `Scan`; `scan job = some msg`
models a non-nil error whose `Error()` string is `msg`. -/
structure ScanClientInterface where
  scan : ScanJob → Option String

/-- Opaque descriptor returned by the external `downloadScanClient`. -/
structure ScanClientInfo where
  token : String
  deriving DecidableEq, Repr

/-- The image-pull helper built by `NewImageFacadePuller(host, port)`. -/
structure ImageFacadePuller where
  host : String
  port : Nat
  deriving DecidableEq, Repr

/-- `NewImageFacadePuller(host, port)`. -/
def NewImageFacadePuller (host : String) (port : Nat) : ImageFacadePuller :=
  ⟨host, port⟩

/-- Hub section of `Config` (the fields `NewScanner` and
`downloadScanner` read). -/
structure HubConfig where
  user : String
  passwordEnvVar : String
  port : Nat
  clientTimeoutSeconds : Nat
  deriving DecidableEq, Repr

/-- Perceptor (coordinator) section of `Config`. -/
structure PerceptorConfig where
  host : String
  port : Nat
  deriving DecidableEq, Repr

/-- ImageFacade section of `Config` (`GetHost()` is modelled by the
`host` field). -/
structure ImageFacadeConfig where
  host : String
  port : Nat
  deriving DecidableEq, Repr

/-- `Config`: the parts of the configuration the scanner core reads. -/
structure Config where
  hub : HubConfig
  perceptor : PerceptorConfig
  imageFacade : ImageFacadeConfig
  deriving DecidableEq, Repr

/-- `api.NextImagePath`.  The constant lives in the external api package;
its exact value is immaterial to every claim — only that the two
coordinator paths are distinct labels. -/
def NextImagePath : String := "nextimage"

/-- `api.FinishedScanPath` (see `NextImagePath`). -/
def FinishedScanPath : String := "finishedscan"

/-- Result of `ioutil.ReadAll(resp.Body)`. -/
inductive BodyRead where
  | failed (msg : String)
  | bytes (s : String)
  deriving DecidableEq, Repr

/-- One HTTP response as the agent sees it: a status code, and what
reading the body would yield. -/
structure HTTPResponse where
  statusCode : Nat
  body : BodyRead
  deriving DecidableEq, Repr

/-- Oracle for one `httpClient.Post` call: either the transport fails
(non-nil `err` from `Post`) or a response comes back. -/
inductive PostOutcome where
  | transportError (msg : String)
  | response (resp : HTTPResponse)
  deriving DecidableEq, Repr

/-- Observable events emitted while the scanner runs: each POST attempt,
each metrics call, each collaborator invocation. -/
inductive Event where
  | post (path contentType body : String)
  | httpStats (path : String) (status : Nat)
  | scannerError (reason : String)
  | downloadAttempt (hubURL user password : String) (port timeoutSeconds : Nat)
  | scanInvoked (job : ScanJob)
  deriving DecidableEq, Repr

/-- Outcome of a computation that embeds an unbounded Go loop:
`done a` when the Go code returned `a`; `stillLooping` when the supplied
response oracle ran out before the loop's exit condition was met (the Go
code would still be spinning). -/
inductive LoopOutcome (α : Type) where
  | done (a : α)
  | stillLooping
  deriving DecidableEq, Repr

/-- The external collaborators and stdlib calls, supplied as oracles:
`downloadScanClient(hubURL, user, password, port, timeout)`,
`NewHubScanClient(user, port, info, puller)`, `json.Unmarshal` into a
`NextImage`, and `json.Marshal` of a `FinishedScanClientJob`. -/
structure ScanDeps where
  downloadScanClient : String → String → String → Nat → Nat → Except String ScanClientInfo
  newHubScanClient : String → Nat → ScanClientInfo → ImageFacadePuller → Except String ScanClientInterface
  unmarshalNextImage : String → Except String NextImage
  marshalFinishedJob : FinishedScanClientJob → Except String String

/-- The mutable fields of `Scanner` (the `stop` channel is modelled by
loop events, the http client by its timeout). -/
structure ScannerState where
  scanClient : Option ScanClientInterface
  httpClientTimeoutSeconds : Nat
  perceptorHost : String
  perceptorPort : Nat
  config : Config
  hubPassword : String

/-- The process environment. -/
def Env : Type := String → Option String

/-- `os.Setenv` as a total map update (see the module comment). -/
def setEnv (env : Env) (key value : String) : Env :=
  fun k => if k = key then some value else env k

/-- `NewScanner(config, stop)`: looks up the credential env var, fails if
absent, publishes it under `BD_HUB_PASSWORD`, builds the 5-second-timeout
http client and the initial state (no scan client cached).  Returns the
updated process environment alongside the result. -/
def NewScanner (env : Env) (config : Config) : Env × Except String ScannerState :=
  match env config.hub.passwordEnvVar with
  | none =>
      (env, Except.error
        ("unable to get Hub password: environment variable " ++ config.hub.passwordEnvVar ++ " not set"))
  | some hubPassword =>
      (setEnv env "BD_HUB_PASSWORD" hubPassword,
       Except.ok
         { scanClient := none
           httpClientTimeoutSeconds := 5
           perceptorHost := config.perceptor.host
           perceptorPort := config.perceptor.port
           config := config
           hubPassword := hubPassword })

/-- `buildURL(path)`. -/
def buildURL (s : ScannerState) (path : String) : String :=
  "http://" ++ s.perceptorHost ++ ":" ++ toString s.perceptorPort ++ "/" ++ path

/-- `downloadScanner(hubURL)`: calls the external downloader with the
config's user, the captured hub password, the hub port and the client
timeout; on success builds the image puller and the hub scan client. -/
def downloadScanner (deps : ScanDeps) (s : ScannerState) (hubURL : String) :
    List Event × Except String ScanClientInterface :=
  let config := s.config
  let evs := [Event.downloadAttempt hubURL config.hub.user s.hubPassword
                config.hub.port config.hub.clientTimeoutSeconds]
  match deps.downloadScanClient hubURL config.hub.user s.hubPassword
      config.hub.port config.hub.clientTimeoutSeconds with
  | Except.error e => (evs, Except.error e)
  | Except.ok scanClientInfo =>
      let imagePuller := NewImageFacadePuller config.imageFacade.host config.imageFacade.port
      match deps.newHubScanClient config.hub.user config.hub.port scanClientInfo imagePuller with
      | Except.error e => (evs, Except.error e)
      | Except.ok scanClient => (evs, Except.ok scanClient)

/-- `requestScanJob()`: empty-bodied POST to the next-image path, driven
by the oracle `out`; decodes the body into a `NextImage` on a readable
200 body. -/
def requestScanJob (deps : ScanDeps) (out : PostOutcome) :
    List Event × Except String (Option ImageSpec) :=
  match out with
  | PostOutcome.transportError e =>
      ([Event.post NextImagePath "" "", Event.scannerError "unable to POST get next image"],
       Except.error e)
  | PostOutcome.response resp =>
      let evs := [Event.post NextImagePath "" "", Event.httpStats NextImagePath resp.statusCode]
      if resp.statusCode ≠ 200 then
        (evs, Except.error ("http POST request failed with status code " ++ toString resp.statusCode))
      else
        match resp.body with
        | BodyRead.failed e =>
            (evs ++ [Event.scannerError "unable to read response body"], Except.error e)
        | BodyRead.bytes bodyBytes =>
            match deps.unmarshalNextImage bodyBytes with
            | Except.error e =>
                (evs ++ [Event.scannerError "unmarshaling JSON body failed"], Except.error e)
            | Except.ok nextImage => (evs, Except.ok nextImage.imageSpec)

/-- The retry loop of `finishScan`, one oracle entry per POST attempt:
transport error or non-200 continue the loop; a 200 returns nil.  An
exhausted oracle means the Go loop is still running. -/
def finishScanLoop (jsonBytes : String) :
    List PostOutcome → List Event × LoopOutcome (Except String Unit)
  | [] => ([], LoopOutcome.stillLooping)
  | PostOutcome.transportError _ :: rest =>
      let r := finishScanLoop jsonBytes rest
      (Event.post FinishedScanPath "application/json" jsonBytes ::
         Event.scannerError "unable to POST finished job" :: r.1, r.2)
  | PostOutcome.response resp :: rest =>
      if resp.statusCode ≠ 200 then
        let r := finishScanLoop jsonBytes rest
        (Event.post FinishedScanPath "application/json" jsonBytes ::
           Event.httpStats FinishedScanPath resp.statusCode :: r.1, r.2)
      else
        ([Event.post FinishedScanPath "application/json" jsonBytes,
          Event.httpStats FinishedScanPath resp.statusCode],
         LoopOutcome.done (Except.ok ()))

/-- `finishScan(results)`: marshal the report (fail fast on error,
recording an error metric), then retry the POST until a 200. -/
def finishScan (deps : ScanDeps) (results : FinishedScanClientJob)
    (responses : List PostOutcome) : List Event × LoopOutcome (Except String Unit) :=
  match deps.marshalFinishedJob results with
  | Except.error e =>
      ([Event.scannerError "unable to marshal json for finished job"],
       LoopOutcome.done (Except.error e))
  | Except.ok jsonBytes => finishScanLoop jsonBytes responses

/-- The network oracle for one polling cycle: the outcome of the
next-image POST and the successive outcomes offered to the finished-job
retry loop. -/
structure CycleInput where
  nextOutcome : PostOutcome
  finishedResponses : List PostOutcome

/-- Everything observable about one `requestAndRunScanJob` call: the
event trace, the state afterwards, the `FinishedScanClientJob` value
handed to `finishScan` (if the job was executed), and the return. -/
structure CycleResult where
  trace : List Event
  state : ScannerState
  report : Option FinishedScanClientJob
  outcome : LoopOutcome (Except String Unit)

/-- `requestAndRunScanJob()`: request, maybe provision, scan, report. -/
def requestAndRunScanJob (deps : ScanDeps) (s : ScannerState) (inp : CycleInput) :
    CycleResult :=
  let req := requestScanJob deps inp.nextOutcome
  match req.2 with
  | Except.error e => ⟨req.1, s, none, LoopOutcome.done (Except.error e)⟩
  | Except.ok none => ⟨req.1, s, none, LoopOutcome.done (Except.ok ())⟩
  | Except.ok (some image) =>
      let provision : List Event × Except String (ScanClientInterface × ScannerState) :=
        match s.scanClient with
        | some scanClient => ([], Except.ok (scanClient, s))
        | none =>
            let dl := downloadScanner deps s image.hubURL
            match dl.2 with
            | Except.error e => (dl.1, Except.error e)
            | Except.ok scanClient =>
                (dl.1, Except.ok (scanClient, { s with scanClient := some scanClient }))
      match provision with
      | (devs, Except.error e) => ⟨req.1 ++ devs, s, none, LoopOutcome.done (Except.error e)⟩
      | (devs, Except.ok (scanClient, s')) =>
          let job := NewScanJob image.repository image.sha image.hubURL
            image.hubProjectName image.hubProjectVersionName image.hubScanName
          let scanErr := scanClient.scan job
          let errorString := errString scanErr
          let finishedJob : FinishedScanClientJob := ⟨errorString, image⟩
          let fin := finishScan deps finishedJob inp.finishedResponses
          ⟨req.1 ++ devs ++ Event.scanInvoked job :: fin.1, s', some finishedJob, fin.2⟩

/-- What the select at the top of `StartRequestingScanJobs` observes
next: the stop channel firing, or the timer firing (with that cycle's
network oracle attached). -/
inductive LoopEvent where
  | stop
  | tick (inp : CycleInput)

/-- How a run of the polling loop over a finite event prefix ended:
still waiting for the next event, exited via the stop channel, or stuck
inside an unfinished `finishScan` retry loop. -/
inductive LoopStatus where
  | running
  | stopped
  | stuck
  deriving DecidableEq, Repr

/-- The goroutine body of `StartRequestingScanJobs`: on stop, return
(processing no further events); on a tick, run one cycle — its error, if
any, is only logged — and continue. -/
def runLoop (deps : ScanDeps) : List LoopEvent → ScannerState →
    List Event × ScannerState × LoopStatus
  | [], s => ([], s, LoopStatus.running)
  | LoopEvent.stop :: _, s => ([], s, LoopStatus.stopped)
  | LoopEvent.tick inp :: rest, s =>
      let r := requestAndRunScanJob deps s inp
      match r.outcome with
      | LoopOutcome.stillLooping => (r.trace, r.state, LoopStatus.stuck)
      | LoopOutcome.done _ =>
          let k := runLoop deps rest r.state
          (r.trace ++ k.1, k.2)

/-- True of the oracle entries `finishScanLoop` treats as success: a
response with status code 200. -/
def is200 : PostOutcome → Bool
  | PostOutcome.response resp => resp.statusCode == 200
  | PostOutcome.transportError _ => false

/-- Number of POST attempts to the finished-scan path in a trace. -/
def finishedPostCount (evs : List Event) : Nat :=
  evs.countP fun e =>
    match e with
    | Event.post path _ _ => path == FinishedScanPath
    | _ => false

/-- Number of POST attempts to the next-image path in a trace. -/
def nextPostCount (evs : List Event) : Nat :=
  evs.countP fun e =>
    match e with
    | Event.post path _ _ => path == NextImagePath
    | _ => false

/-- Number of `recordScannerError` calls in a trace. -/
def errorMetricCount (evs : List Event) : Nat :=
  evs.countP fun e =>
    match e with
    | Event.scannerError _ => true
    | _ => false

/-- Number of executor invocations in a trace. -/
def scanCount (evs : List Event) : Nat :=
  evs.countP fun e =>
    match e with
    | Event.scanInvoked _ => true
    | _ => false

/-- Number of `downloadScanClient` invocations in a trace. -/
def downloadCount (evs : List Event) : Nat :=
  evs.countP fun e =>
    match e with
    | Event.downloadAttempt _ _ _ _ _ => true
    | _ => false

/-- The passwords handed to `downloadScanClient` in a trace. -/
def downloadPasswords (evs : List Event) : List String :=
  evs.filterMap fun e =>
    match e with
    | Event.downloadAttempt _ _ password _ _ => some password
    | _ => none

/-! ### Concrete fixtures used by the witness theorems -/

/-- The image spec of the spec's end-to-end scenario (section 8). -/
def sampleImage : ImageSpec := ⟨"r", "s1", "http://hub", "p", "v1", "n1"⟩

/-- An executor whose scans always succeed. -/
def trivialClient : ScanClientInterface := ⟨fun _ => none⟩

/-- A concrete configuration. -/
def sampleConfig : Config := ⟨⟨"u", "HUB_PW", 443, 600⟩, ⟨"perceptor", 3001⟩, ⟨"facade", 3004⟩⟩

/-- Concrete collaborator oracles: download and construction succeed,
bodies decode to `sampleImage`, marshalling succeeds. -/
def trivialDeps : ScanDeps :=
  { downloadScanClient := fun _ _ _ _ _ => Except.ok ⟨"info"⟩
    newHubScanClient := fun _ _ _ _ => Except.ok trivialClient
    unmarshalNextImage := fun _ => Except.ok ⟨some sampleImage⟩
    marshalFinishedJob := fun _ => Except.ok "json" }

/-- A freshly constructed scanner state (no cached scan client). -/
def sampleState : ScannerState :=
  { scanClient := none
    httpClientTimeoutSeconds := 5
    perceptorHost := "perceptor"
    perceptorPort := 3001
    config := sampleConfig
    hubPassword := "pw" }

/-- A 200 response with an empty readable body. -/
def resp200 : PostOutcome := PostOutcome.response ⟨200, BodyRead.bytes ""⟩

/-- A 500 response with an empty readable body. -/
def resp500 : PostOutcome := PostOutcome.response ⟨500, BodyRead.bytes ""⟩

/-- A successful report for `sampleImage`. -/
def sampleReport : FinishedScanClientJob := ⟨"", sampleImage⟩

/-- A process environment holding the credential under the name
`sampleConfig` asks for. -/
def sampleEnv : Env := fun k => if k = "HUB_PW" then some "pw" else none

/-- A process environment without the credential. -/
def emptyEnv : Env := fun _ => none

/-- Oracles whose next-image bodies decode to a NextImage with no
embedded ImageSpec. -/
def nullDeps : ScanDeps :=
  { trivialDeps with unmarshalNextImage := fun _ => Except.ok ⟨none⟩ }

/-- Oracles whose scan-client download always fails. -/
def failDeps : ScanDeps :=
  { trivialDeps with downloadScanClient := fun _ _ _ _ _ => Except.error "download failed" }

/-- A cycle input: next-image POST answered 200, first finished-job POST
answered 200. -/
def goodInp : CycleInput := ⟨resp200, [resp200]⟩

/-- `sampleState` with `trivialClient` already cached. -/
def cachedState : ScannerState := { sampleState with scanClient := some trivialClient }

/-- An executor whose scans fail with a non-nil error whose message is
the empty string. -/
def emptyMsgClient : ScanClientInterface := ⟨fun _ => some ""⟩

/-- `sampleState` with `emptyMsgClient` already cached. -/
def emptyMsgState : ScannerState := { sampleState with scanClient := some emptyMsgClient }

/-- An executor whose scans fail with the message `boom`. -/
def boomClient : ScanClientInterface := ⟨fun _ => some "boom"⟩

/-- `sampleState` with `boomClient` already cached. -/
def boomState : ScannerState := { sampleState with scanClient := some boomClient }

/-- The state `NewScanner sampleEnv sampleConfig` constructs. -/
def constructedState : ScannerState :=
  ⟨none, 5, "perceptor", 3001, sampleConfig, "pw"⟩

/-! ### The finishScan retry loop (C1) -/

lemma finishScanLoop_all_fail (jsonBytes : String) (responses : List PostOutcome)
    (h : ∀ x ∈ responses, is200 x = false) :
    (finishScanLoop jsonBytes responses).2 = LoopOutcome.stillLooping ∧
    finishedPostCount (finishScanLoop jsonBytes responses).1 = responses.length := by
  induction responses with
  | nil => simp [finishScanLoop, finishedPostCount]
  | cons hd tl ih =>
      have hhd := h hd (by simp)
      have htl : ∀ x ∈ tl, is200 x = false := fun x hx => h x (by simp [hx])
      obtain ⟨h1, h2⟩ := ih htl
      cases hd with
      | transportError msg =>
          simp only [finishScanLoop, h1, h2, finishedPostCount, List.countP_cons] at *
          simp [finishedPostCount] at h2 ⊢
          omega
      | response resp =>
          have hne : resp.statusCode ≠ 200 := by
            intro hc
            simp [is200, hc] at hhd
          simp only [finishScanLoop, if_pos hne] at *
          refine ⟨h1, ?_⟩
          simp [finishedPostCount, List.countP_cons] at h2 ⊢
          omega

lemma finishScanLoop_first200 (jsonBytes : String) (pre : List PostOutcome)
    (r : PostOutcome) (post : List PostOutcome)
    (hpre : ∀ x ∈ pre, is200 x = false) (hr : is200 r = true) :
    (finishScanLoop jsonBytes (pre ++ r :: post)).2 = LoopOutcome.done (Except.ok ()) ∧
    finishedPostCount (finishScanLoop jsonBytes (pre ++ r :: post)).1 = pre.length + 1 := by
  induction pre with
  | nil =>
      cases r with
      | transportError msg => simp [is200] at hr
      | response resp =>
          have hc : resp.statusCode = 200 := by simpa [is200] using hr
          simp [finishScanLoop, hc, finishedPostCount]
  | cons hd tl ih =>
      have hhd := hpre hd (by simp)
      have htl : ∀ x ∈ tl, is200 x = false := fun x hx => hpre x (by simp [hx])
      obtain ⟨h1, h2⟩ := ih htl
      cases hd with
      | transportError msg =>
          simp only [List.cons_append, finishScanLoop]
          refine ⟨h1, ?_⟩
          simp [finishedPostCount, List.countP_cons] at h2 ⊢
          omega
      | response resp =>
          have hne : resp.statusCode ≠ 200 := by
            intro hc
            simp [is200, hc] at hhd
          simp only [List.cons_append, finishScanLoop, if_pos hne]
          refine ⟨h1, ?_⟩
          simp [finishedPostCount, List.countP_cons] at h2 ⊢
          omega

/-- C1: when the report marshals successfully, `finishScan` retries the
POST unconditionally — transport errors and non-200 responses alike —
until the first 200: with the first 200 at position `k` it makes exactly
`k + 1` POST attempts and returns nil; with no 200 among the offered
responses it is still looping after attempting each one; in particular
for the response sequence `[500, 500, 200]` it makes exactly 3 attempts
and succeeds after the third. -/
theorem finishScan_retries_until_200 (deps : ScanDeps) (report : FinishedScanClientJob)
    (jsonBytes : String) (hmarshal : deps.marshalFinishedJob report = Except.ok jsonBytes) :
    (∀ pre r post, (∀ x ∈ pre, is200 x = false) → is200 r = true →
      (finishScan deps report (pre ++ r :: post)).2 = LoopOutcome.done (Except.ok ()) ∧
      finishedPostCount (finishScan deps report (pre ++ r :: post)).1 = pre.length + 1) ∧
    (∀ responses, (∀ x ∈ responses, is200 x = false) →
      (finishScan deps report responses).2 = LoopOutcome.stillLooping ∧
      finishedPostCount (finishScan deps report responses).1 = responses.length) ∧
    ((finishScan deps report [resp500, resp500, resp200]).2 = LoopOutcome.done (Except.ok ()) ∧
      finishedPostCount (finishScan deps report [resp500, resp500, resp200]).1 = 3) := by
  refine ⟨?_, ?_, ?_⟩
  · intro pre r post hpre hr
    simpa only [finishScan, hmarshal] using finishScanLoop_first200 jsonBytes pre r post hpre hr
  · intro responses h
    simpa only [finishScan, hmarshal] using finishScanLoop_all_fail jsonBytes responses h
  · have h := finishScanLoop_first200 jsonBytes [resp500, resp500] resp200 []
      (by decide) (by decide)
    simpa only [finishScan, hmarshal] using h

/-- Witness for C1 at concrete inputs. -/
theorem finishScan_retries_until_200_witness :
    (finishScan trivialDeps sampleReport [resp500, resp500, resp200]).2 =
      LoopOutcome.done (Except.ok ()) ∧
    finishedPostCount (finishScan trivialDeps sampleReport [resp500, resp500, resp200]).1 = 3 :=
  (finishScan_retries_until_200 trivialDeps sampleReport "json" rfl).2.2

/-! ### Case lemmas for one polling cycle -/

lemma cycle_req_error (deps : ScanDeps) (s : ScannerState) (inp : CycleInput) (e : String)
    (h : (requestScanJob deps inp.nextOutcome).2 = Except.error e) :
    requestAndRunScanJob deps s inp =
      ⟨(requestScanJob deps inp.nextOutcome).1, s, none, LoopOutcome.done (Except.error e)⟩ := by
  simp only [requestAndRunScanJob]
  rw [h]

lemma cycle_req_none (deps : ScanDeps) (s : ScannerState) (inp : CycleInput)
    (h : (requestScanJob deps inp.nextOutcome).2 = Except.ok none) :
    requestAndRunScanJob deps s inp =
      ⟨(requestScanJob deps inp.nextOutcome).1, s, none, LoopOutcome.done (Except.ok ())⟩ := by
  simp only [requestAndRunScanJob]
  rw [h]

lemma cycle_cached (deps : ScanDeps) (s : ScannerState) (inp : CycleInput)
    (image : ImageSpec) (c : ScanClientInterface)
    (hc : s.scanClient = some c)
    (himg : (requestScanJob deps inp.nextOutcome).2 = Except.ok (some image)) :
    requestAndRunScanJob deps s inp =
      ⟨(requestScanJob deps inp.nextOutcome).1 ++
         Event.scanInvoked (jobOf image) ::
           (finishScan deps ⟨errString (c.scan (jobOf image)), image⟩ inp.finishedResponses).1,
       s, some ⟨errString (c.scan (jobOf image)), image⟩,
       (finishScan deps ⟨errString (c.scan (jobOf image)), image⟩ inp.finishedResponses).2⟩ := by
  simp [requestAndRunScanJob, himg, hc, jobOf, NewScanJob]

lemma cycle_provision_fail (deps : ScanDeps) (s : ScannerState) (inp : CycleInput)
    (image : ImageSpec) (e : String)
    (hc : s.scanClient = none)
    (himg : (requestScanJob deps inp.nextOutcome).2 = Except.ok (some image))
    (hdl : (downloadScanner deps s image.hubURL).2 = Except.error e) :
    requestAndRunScanJob deps s inp =
      ⟨(requestScanJob deps inp.nextOutcome).1 ++ (downloadScanner deps s image.hubURL).1,
       s, none, LoopOutcome.done (Except.error e)⟩ := by
  simp [requestAndRunScanJob, himg, hc, hdl]

lemma cycle_provision_ok (deps : ScanDeps) (s : ScannerState) (inp : CycleInput)
    (image : ImageSpec) (c : ScanClientInterface)
    (hc : s.scanClient = none)
    (himg : (requestScanJob deps inp.nextOutcome).2 = Except.ok (some image))
    (hdl : (downloadScanner deps s image.hubURL).2 = Except.ok c) :
    requestAndRunScanJob deps s inp =
      ⟨(requestScanJob deps inp.nextOutcome).1 ++ (downloadScanner deps s image.hubURL).1 ++
         Event.scanInvoked (jobOf image) ::
           (finishScan deps ⟨errString (c.scan (jobOf image)), image⟩ inp.finishedResponses).1,
       { s with scanClient := some c }, some ⟨errString (c.scan (jobOf image)), image⟩,
       (finishScan deps ⟨errString (c.scan (jobOf image)), image⟩ inp.finishedResponses).2⟩ := by
  simp [requestAndRunScanJob, himg, hc, hdl, jobOf, NewScanJob]

/-! ### Trace bookkeeping lemmas -/

lemma nextBeqFinished : (NextImagePath == FinishedScanPath) = false := by decide

lemma finishedBeqNext : (FinishedScanPath == NextImagePath) = false := by decide

lemma requestScanJob_counts (deps : ScanDeps) (out : PostOutcome) :
    downloadCount (requestScanJob deps out).1 = 0 ∧
    scanCount (requestScanJob deps out).1 = 0 ∧
    finishedPostCount (requestScanJob deps out).1 = 0 := by
  cases out with
  | transportError msg =>
      simp [requestScanJob, downloadCount, scanCount, finishedPostCount, nextBeqFinished]
  | response resp =>
      rcases resp with ⟨code, body⟩
      by_cases hcode : code = 200
      · subst hcode
        cases body with
        | failed e =>
            simp [requestScanJob, downloadCount, scanCount, finishedPostCount, nextBeqFinished]
        | bytes b =>
            cases h : deps.unmarshalNextImage b with
            | error e =>
                simp [requestScanJob, h, downloadCount, scanCount, finishedPostCount, nextBeqFinished]
            | ok ni =>
                simp [requestScanJob, h, downloadCount, scanCount, finishedPostCount, nextBeqFinished]
      · simp [requestScanJob, hcode, downloadCount, scanCount, finishedPostCount, nextBeqFinished]

lemma requestScanJob_downloadPasswords (deps : ScanDeps) (out : PostOutcome) :
    downloadPasswords (requestScanJob deps out).1 = [] := by
  cases out with
  | transportError msg => simp [requestScanJob, downloadPasswords]
  | response resp =>
      rcases resp with ⟨code, body⟩
      by_cases hcode : code = 200
      · subst hcode
        cases body with
        | failed e => simp [requestScanJob, downloadPasswords]
        | bytes b =>
            cases h : deps.unmarshalNextImage b with
            | error e => simp [requestScanJob, h, downloadPasswords]
            | ok ni => simp [requestScanJob, h, downloadPasswords]
      · simp [requestScanJob, hcode, downloadPasswords]

lemma requestScanJob_trace_head (deps : ScanDeps) (out : PostOutcome) :
    ∃ t, (requestScanJob deps out).1 = Event.post NextImagePath "" "" :: t := by
  cases out with
  | transportError msg =>
      exact ⟨[Event.scannerError "unable to POST get next image"], rfl⟩
  | response resp =>
      rcases resp with ⟨code, body⟩
      by_cases hcode : code = 200
      · subst hcode
        cases body with
        | failed e =>
            exact ⟨[Event.httpStats NextImagePath 200,
              Event.scannerError "unable to read response body"], by simp [requestScanJob]⟩
        | bytes b =>
            cases h : deps.unmarshalNextImage b with
            | error e =>
                exact ⟨[Event.httpStats NextImagePath 200,
                  Event.scannerError "unmarshaling JSON body failed"], by simp [requestScanJob, h]⟩
            | ok ni =>
                exact ⟨[Event.httpStats NextImagePath 200], by simp [requestScanJob, h]⟩
      · exact ⟨[Event.httpStats NextImagePath code], by simp [requestScanJob, hcode]⟩

lemma finishScanLoop_counts (jsonBytes : String) (responses : List PostOutcome) :
    downloadCount (finishScanLoop jsonBytes responses).1 = 0 ∧
    scanCount (finishScanLoop jsonBytes responses).1 = 0 ∧
    nextPostCount (finishScanLoop jsonBytes responses).1 = 0 := by
  induction responses with
  | nil => simp [finishScanLoop, downloadCount, scanCount, nextPostCount]
  | cons hd tl ih =>
      obtain ⟨h1, h2, h3⟩ := ih
      cases hd with
      | transportError msg =>
          simp only [finishScanLoop]
          simp [downloadCount, scanCount, nextPostCount, List.countP_cons, finishedBeqNext] at h1 h2 h3 ⊢
          exact ⟨h1, h2, h3⟩
      | response resp =>
          by_cases hcode : resp.statusCode = 200
          · simp [finishScanLoop, hcode, downloadCount, scanCount, nextPostCount, finishedBeqNext]
          · simp only [finishScanLoop, if_pos hcode]
            simp [downloadCount, scanCount, nextPostCount, List.countP_cons, finishedBeqNext] at h1 h2 h3 ⊢
            exact ⟨h1, h2, h3⟩

lemma finishScanLoop_downloadPasswords (jsonBytes : String) (responses : List PostOutcome) :
    downloadPasswords (finishScanLoop jsonBytes responses).1 = [] := by
  induction responses with
  | nil => simp [finishScanLoop, downloadPasswords]
  | cons hd tl ih =>
      cases hd with
      | transportError msg =>
          simp only [finishScanLoop]
          simp [downloadPasswords] at ih ⊢
          exact ih
      | response resp =>
          by_cases hcode : resp.statusCode = 200
          · simp [finishScanLoop, hcode, downloadPasswords]
          · simp only [finishScanLoop, if_pos hcode]
            simp [downloadPasswords] at ih ⊢
            exact ih

lemma finishScan_counts (deps : ScanDeps) (results : FinishedScanClientJob)
    (responses : List PostOutcome) :
    downloadCount (finishScan deps results responses).1 = 0 ∧
    scanCount (finishScan deps results responses).1 = 0 ∧
    nextPostCount (finishScan deps results responses).1 = 0 := by
  cases h : deps.marshalFinishedJob results with
  | error e => simp [finishScan, h, downloadCount, scanCount, nextPostCount]
  | ok jsonBytes =>
      simpa only [finishScan, h] using finishScanLoop_counts jsonBytes responses

lemma finishScan_downloadPasswords (deps : ScanDeps) (results : FinishedScanClientJob)
    (responses : List PostOutcome) :
    downloadPasswords (finishScan deps results responses).1 = [] := by
  cases h : deps.marshalFinishedJob results with
  | error e => simp [finishScan, h, downloadPasswords]
  | ok jsonBytes =>
      simpa only [finishScan, h] using finishScanLoop_downloadPasswords jsonBytes responses

lemma downloadScanner_trace (deps : ScanDeps) (s : ScannerState) (hubURL : String) :
    (downloadScanner deps s hubURL).1 =
      [Event.downloadAttempt hubURL s.config.hub.user s.hubPassword
        s.config.hub.port s.config.hub.clientTimeoutSeconds] := by
  cases h : deps.downloadScanClient hubURL s.config.hub.user s.hubPassword
      s.config.hub.port s.config.hub.clientTimeoutSeconds with
  | error e => simp [downloadScanner, h]
  | ok info =>
      cases h2 : deps.newHubScanClient s.config.hub.user s.config.hub.port info
          (NewImageFacadePuller s.config.imageFacade.host s.config.imageFacade.port) with
      | error e => simp [downloadScanner, h, h2]
      | ok c => simp [downloadScanner, h, h2]

lemma downloadScanner_counts (deps : ScanDeps) (s : ScannerState) (hubURL : String) :
    downloadCount (downloadScanner deps s hubURL).1 = 1 ∧
    scanCount (downloadScanner deps s hubURL).1 = 0 ∧
    finishedPostCount (downloadScanner deps s hubURL).1 = 0 ∧
    downloadPasswords (downloadScanner deps s hubURL).1 = [s.hubPassword] := by
  rw [downloadScanner_trace]
  simp [downloadCount, scanCount, finishedPostCount, downloadPasswords]

/-! ### Cycle and loop invariants -/

lemma downloadPasswords_append (a b : List Event) :
    downloadPasswords (a ++ b) = downloadPasswords a ++ downloadPasswords b := by
  simp [downloadPasswords]

lemma downloadPasswords_scanInvoked (job : ScanJob) (l : List Event) :
    downloadPasswords (Event.scanInvoked job :: l) = downloadPasswords l := by
  simp [downloadPasswords]

lemma cycle_state_cached (deps : ScanDeps) (s : ScannerState) (inp : CycleInput)
    (c : ScanClientInterface) (hc : s.scanClient = some c) :
    (requestAndRunScanJob deps s inp).state = s ∧
    downloadCount (requestAndRunScanJob deps s inp).trace = 0 := by
  cases hreq : (requestScanJob deps inp.nextOutcome).2 with
  | error e =>
      rw [cycle_req_error deps s inp e hreq]
      exact ⟨rfl, (requestScanJob_counts deps inp.nextOutcome).1⟩
  | ok oimg =>
      cases oimg with
      | none =>
          rw [cycle_req_none deps s inp hreq]
          exact ⟨rfl, (requestScanJob_counts deps inp.nextOutcome).1⟩
      | some image =>
          rw [cycle_cached deps s inp image c hc hreq]
          refine ⟨rfl, ?_⟩
          have h1 := (requestScanJob_counts deps inp.nextOutcome).1
          have h2 := (finishScan_counts deps
            ⟨errString (c.scan (jobOf image)), image⟩ inp.finishedResponses).1
          simp [downloadCount, List.countP_append, List.countP_cons] at h1 h2 ⊢
          exact ⟨h1, h2⟩

lemma cycle_state_shape (deps : ScanDeps) (s : ScannerState) (inp : CycleInput) :
    (requestAndRunScanJob deps s inp).state = s ∨
    ∃ c, (requestAndRunScanJob deps s inp).state = { s with scanClient := some c } := by
  cases hreq : (requestScanJob deps inp.nextOutcome).2 with
  | error e => exact Or.inl (by rw [cycle_req_error deps s inp e hreq])
  | ok oimg =>
      cases oimg with
      | none => exact Or.inl (by rw [cycle_req_none deps s inp hreq])
      | some image =>
          cases hc : s.scanClient with
          | some c => exact Or.inl (by rw [cycle_cached deps s inp image c hc hreq])
          | none =>
              cases hdl : (downloadScanner deps s image.hubURL).2 with
              | error e =>
                  exact Or.inl (by rw [cycle_provision_fail deps s inp image e hc hreq hdl])
              | ok c =>
                  exact Or.inr ⟨c, by rw [cycle_provision_ok deps s inp image c hc hreq hdl]⟩

lemma cycle_hubPassword (deps : ScanDeps) (s : ScannerState) (inp : CycleInput) :
    ((requestAndRunScanJob deps s inp).state).hubPassword = s.hubPassword := by
  rcases cycle_state_shape deps s inp with h | ⟨c, h⟩ <;> rw [h]

lemma cycle_passwords (deps : ScanDeps) (s : ScannerState) (inp : CycleInput) :
    ∀ pw ∈ downloadPasswords (requestAndRunScanJob deps s inp).trace, pw = s.hubPassword := by
  intro pw hpw
  cases hreq : (requestScanJob deps inp.nextOutcome).2 with
  | error e =>
      simp only [cycle_req_error deps s inp e hreq] at hpw
      simp [requestScanJob_downloadPasswords deps inp.nextOutcome] at hpw
  | ok oimg =>
      cases oimg with
      | none =>
          simp only [cycle_req_none deps s inp hreq] at hpw
          simp [requestScanJob_downloadPasswords deps inp.nextOutcome] at hpw
      | some image =>
          cases hc : s.scanClient with
          | some c =>
              simp only [cycle_cached deps s inp image c hc hreq] at hpw
              simp [downloadPasswords_append, downloadPasswords_scanInvoked,
                requestScanJob_downloadPasswords deps inp.nextOutcome,
                finishScan_downloadPasswords] at hpw
          | none =>
              cases hdl : (downloadScanner deps s image.hubURL).2 with
              | error e =>
                  simp only [cycle_provision_fail deps s inp image e hc hreq hdl] at hpw
                  have h4 := (downloadScanner_counts deps s image.hubURL).2.2.2
                  simp [downloadPasswords_append,
                    requestScanJob_downloadPasswords deps inp.nextOutcome, h4] at hpw
                  exact hpw
              | ok c =>
                  simp only [cycle_provision_ok deps s inp image c hc hreq hdl] at hpw
                  have h4 := (downloadScanner_counts deps s image.hubURL).2.2.2
                  simp [downloadPasswords_append, downloadPasswords_scanInvoked,
                    requestScanJob_downloadPasswords deps inp.nextOutcome,
                    finishScan_downloadPasswords, h4] at hpw
                  exact hpw

lemma cycle_trace_head (deps : ScanDeps) (s : ScannerState) (inp : CycleInput) :
    ((requestAndRunScanJob deps s inp).trace).head? =
      some (Event.post NextImagePath "" "") := by
  obtain ⟨t, ht⟩ := requestScanJob_trace_head deps inp.nextOutcome
  cases hreq : (requestScanJob deps inp.nextOutcome).2 with
  | error e => simp only [cycle_req_error deps s inp e hreq]; simp [ht]
  | ok oimg =>
      cases oimg with
      | none => simp only [cycle_req_none deps s inp hreq]; simp [ht]
      | some image =>
          cases hc : s.scanClient with
          | some c => simp only [cycle_cached deps s inp image c hc hreq]; simp [ht]
          | none =>
              cases hdl : (downloadScanner deps s image.hubURL).2 with
              | error e =>
                  simp only [cycle_provision_fail deps s inp image e hc hreq hdl]
                  simp [ht]
              | ok c =>
                  simp only [cycle_provision_ok deps s inp image c hc hreq hdl]
                  simp [ht]

lemma runLoop_cached (deps : ScanDeps) (c : ScanClientInterface) :
    ∀ evts s, s.scanClient = some c →
      (runLoop deps evts s).2.1 = s ∧ downloadCount (runLoop deps evts s).1 = 0 := by
  intro evts
  induction evts with
  | nil => intro s hc; simp [runLoop, downloadCount]
  | cons ev rest ih =>
      intro s hc
      cases ev with
      | stop => simp [runLoop, downloadCount]
      | tick inp =>
          obtain ⟨hstate, hcount⟩ := cycle_state_cached deps s inp c hc
          cases hout : (requestAndRunScanJob deps s inp).outcome with
          | stillLooping =>
              simp only [runLoop, hout]
              exact ⟨hstate, hcount⟩
          | done r =>
              simp only [runLoop, hout]
              rw [hstate]
              obtain ⟨ih1, ih2⟩ := ih s hc
              refine ⟨ih1, ?_⟩
              simp [downloadCount, List.countP_append] at hcount ih2 ⊢
              exact ⟨hcount, ih2⟩

lemma runLoop_passwords (deps : ScanDeps) :
    ∀ evts s pw, pw ∈ downloadPasswords (runLoop deps evts s).1 → pw = s.hubPassword := by
  intro evts
  induction evts with
  | nil => intro s pw h; simp [runLoop, downloadPasswords] at h
  | cons ev rest ih =>
      intro s pw h
      cases ev with
      | stop => simp [runLoop, downloadPasswords] at h
      | tick inp =>
          cases hout : (requestAndRunScanJob deps s inp).outcome with
          | stillLooping =>
              simp only [runLoop, hout] at h
              exact cycle_passwords deps s inp pw h
          | done r =>
              simp only [runLoop, hout] at h
              rw [downloadPasswords_append] at h
              rcases List.mem_append.mp h with h1 | h2
              · exact cycle_passwords deps s inp pw h1
              · have hrec := ih (requestAndRunScanJob deps s inp).state pw h2
                rw [cycle_hubPassword deps s inp] at hrec
                exact hrec

lemma runLoop_hubPassword (deps : ScanDeps) :
    ∀ evts s, (((runLoop deps evts s).2.1)).hubPassword = s.hubPassword := by
  intro evts
  induction evts with
  | nil => intro s; simp [runLoop]
  | cons ev rest ih =>
      intro s
      cases ev with
      | stop => simp [runLoop]
      | tick inp =>
          cases hout : (requestAndRunScanJob deps s inp).outcome with
          | stillLooping =>
              simp only [runLoop, hout]
              exact cycle_hubPassword deps s inp
          | done r =>
              simp only [runLoop, hout]
              rw [ih (requestAndRunScanJob deps s inp).state]
              exact cycle_hubPassword deps s inp

/-! ### Scanner construction (C8) -/

/-- C8: `NewScanner` fails (returning no scanner and leaving the
environment untouched) exactly when the variable named by the config's
credential setting is absent from the process environment; when it is
present with value `pw`, the environment gains `BD_HUB_PASSWORD = pw`
and the scanner starts with no cached scan client, a 5-second http-client
timeout, the configured coordinator host and port, and the captured
password. -/
theorem NewScanner_spec (env : Env) (config : Config) :
    (env config.hub.passwordEnvVar = none →
      NewScanner env config =
        (env, Except.error
          ("unable to get Hub password: environment variable " ++
            config.hub.passwordEnvVar ++ " not set"))) ∧
    (∀ pw, env config.hub.passwordEnvVar = some pw →
      NewScanner env config =
        (setEnv env "BD_HUB_PASSWORD" pw,
         Except.ok ⟨none, 5, config.perceptor.host, config.perceptor.port, config, pw⟩) ∧
      (NewScanner env config).1 "BD_HUB_PASSWORD" = some pw) := by
  constructor
  · intro h
    simp [NewScanner, h]
  · intro pw h
    refine ⟨by simp [NewScanner, h], ?_⟩
    simp [NewScanner, h, setEnv]

/-- Witness for C8: both the missing-credential and the
present-credential cases at concrete inputs. -/
theorem NewScanner_spec_witness :
    (emptyEnv sampleConfig.hub.passwordEnvVar = none ∧
      NewScanner emptyEnv sampleConfig =
        (emptyEnv, Except.error
          ("unable to get Hub password: environment variable " ++
            sampleConfig.hub.passwordEnvVar ++ " not set"))) ∧
    (sampleEnv sampleConfig.hub.passwordEnvVar = some "pw" ∧
      NewScanner sampleEnv sampleConfig =
        (setEnv sampleEnv "BD_HUB_PASSWORD" "pw",
         Except.ok ⟨none, 5, sampleConfig.perceptor.host, sampleConfig.perceptor.port,
           sampleConfig, "pw"⟩) ∧
      (NewScanner sampleEnv sampleConfig).1 "BD_HUB_PASSWORD" = some "pw") :=
  ⟨⟨rfl, (NewScanner_spec emptyEnv sampleConfig).1 rfl⟩,
   ⟨rfl, (NewScanner_spec sampleEnv sampleConfig).2 "pw" rfl⟩⟩

/-! ### The next-job request failure paths (C4, C9) -/

/-- C4 counterexample: a 500 response to the next-image POST makes the
request fail, but records no error metric — only the HTTP-outcome metric
is recorded — contradicting the claim that a non-200 response records an
error metric. -/
theorem requestScanJob_non200_no_error_metric_cex :
    (requestScanJob trivialDeps resp500).2 =
      Except.error "http POST request failed with status code 500" ∧
    errorMetricCount (requestScanJob trivialDeps resp500).1 = 0 := by
  constructor
  · rfl
  · decide

/-- C4 (amended): a transport error on the next-image POST fails with an
error and records an error metric; a non-200 response fails with an
error and records the HTTP-outcome metric but no error metric; in both
cases the caller treats the failed request as a skipped tick — the state
is unchanged, no report is built, and the cycle returns the error having
emitted only the request's own events (so no executor invocation and no
finished-job POST). -/
theorem requestScanJob_failure_spec (deps : ScanDeps) :
    (∀ msg, requestScanJob deps (PostOutcome.transportError msg) =
      ([Event.post NextImagePath "" "", Event.scannerError "unable to POST get next image"],
       Except.error msg)) ∧
    (∀ resp : HTTPResponse, resp.statusCode ≠ 200 →
      requestScanJob deps (PostOutcome.response resp) =
        ([Event.post NextImagePath "" "", Event.httpStats NextImagePath resp.statusCode],
         Except.error ("http POST request failed with status code " ++ toString resp.statusCode)) ∧
      errorMetricCount (requestScanJob deps (PostOutcome.response resp)).1 = 0) ∧
    (∀ s inp e, (requestScanJob deps inp.nextOutcome).2 = Except.error e →
      requestAndRunScanJob deps s inp =
        ⟨(requestScanJob deps inp.nextOutcome).1, s, none, LoopOutcome.done (Except.error e)⟩) := by
  refine ⟨?_, ?_, ?_⟩
  · intro msg
    rfl
  · intro resp hne
    constructor
    · simp [requestScanJob, hne]
    · simp [requestScanJob, hne, errorMetricCount]
  · intro s inp e h
    simp only [requestAndRunScanJob]
    rw [h]

/-- Witness for C4's amended theorem at concrete inputs. -/
theorem requestScanJob_failure_spec_witness :
    (requestScanJob trivialDeps (PostOutcome.transportError "connection refused") =
      ([Event.post NextImagePath "" "", Event.scannerError "unable to POST get next image"],
       Except.error "connection refused")) ∧
    (requestScanJob trivialDeps resp500 =
      ([Event.post NextImagePath "" "", Event.httpStats NextImagePath 500],
       Except.error ("http POST request failed with status code " ++ toString 500)) ∧
     errorMetricCount (requestScanJob trivialDeps resp500).1 = 0) ∧
    (requestAndRunScanJob trivialDeps sampleState ⟨resp500, []⟩ =
      ⟨(requestScanJob trivialDeps resp500).1, sampleState, none,
       LoopOutcome.done (Except.error "http POST request failed with status code 500")⟩) :=
  ⟨(requestScanJob_failure_spec trivialDeps).1 "connection refused",
   (requestScanJob_failure_spec trivialDeps).2.1 ⟨500, BodyRead.bytes ""⟩ (by decide),
   (requestScanJob_failure_spec trivialDeps).2.2 sampleState ⟨resp500, []⟩
     "http POST request failed with status code 500" rfl⟩

/-- C9: a 200 response whose body cannot be read fails like a transport
failure: the error metric `unable to read response body` is recorded and
the read error is returned; the result is the same for every JSON
decoder (no decoding is attempted); and the caller runs no job that tick
— state unchanged, no report, no executor invocation, no finished-job
POST. -/
theorem requestScanJob_body_read_failure (deps : ScanDeps) (e : String)
    (s : ScannerState) (rest : List PostOutcome) :
    requestScanJob deps (PostOutcome.response ⟨200, BodyRead.failed e⟩) =
      ([Event.post NextImagePath "" "", Event.httpStats NextImagePath 200,
        Event.scannerError "unable to read response body"], Except.error e) ∧
    (∀ u, requestScanJob { deps with unmarshalNextImage := u }
        (PostOutcome.response ⟨200, BodyRead.failed e⟩) =
      requestScanJob deps (PostOutcome.response ⟨200, BodyRead.failed e⟩)) ∧
    requestAndRunScanJob deps s ⟨PostOutcome.response ⟨200, BodyRead.failed e⟩, rest⟩ =
      ⟨[Event.post NextImagePath "" "", Event.httpStats NextImagePath 200,
        Event.scannerError "unable to read response body"], s, none,
       LoopOutcome.done (Except.error e)⟩ := by
  refine ⟨by simp [requestScanJob], fun u => by simp [requestScanJob], ?_⟩
  simp [requestAndRunScanJob, requestScanJob]

/-! ### The empty next-job result (C6) -/

/-- C6: a 200 response whose body decodes to a NextImage with no
embedded ImageSpec is a valid empty result: the request returns no error
and no image, and the cycle completes the tick successfully having
emitted only the request's POST and its HTTP-outcome metric — no
executor invocation, no report, no finished-job POST, state unchanged. -/
theorem nextImage_null_spec (deps : ScanDeps) (s : ScannerState) (body : String)
    (rest : List PostOutcome)
    (hdecode : deps.unmarshalNextImage body = Except.ok ⟨none⟩) :
    (requestScanJob deps (PostOutcome.response ⟨200, BodyRead.bytes body⟩)).2 =
      Except.ok none ∧
    requestAndRunScanJob deps s ⟨PostOutcome.response ⟨200, BodyRead.bytes body⟩, rest⟩ =
      ⟨[Event.post NextImagePath "" "", Event.httpStats NextImagePath 200], s, none,
       LoopOutcome.done (Except.ok ())⟩ := by
  constructor
  · simp [requestScanJob, hdecode]
  · simp [requestAndRunScanJob, requestScanJob, hdecode]

/-- Witness for C6 at concrete inputs. -/
theorem nextImage_null_spec_witness :
    nullDeps.unmarshalNextImage "" = Except.ok ⟨none⟩ ∧
    (requestScanJob nullDeps (PostOutcome.response ⟨200, BodyRead.bytes ""⟩)).2 =
      Except.ok none ∧
    requestAndRunScanJob nullDeps sampleState ⟨PostOutcome.response ⟨200, BodyRead.bytes ""⟩, []⟩ =
      ⟨[Event.post NextImagePath "" "", Event.httpStats NextImagePath 200], sampleState, none,
       LoopOutcome.done (Except.ok ())⟩ :=
  ⟨rfl,
   (nextImage_null_spec nullDeps sampleState "" [] rfl).1,
   (nextImage_null_spec nullDeps sampleState "" [] rfl).2⟩

/-! ### Lazy one-time provisioning (C2) -/

/-- C2: the ScanExecutor is provisioned lazily at most once: with a
cached client the cycle leaves the state untouched and calls the
downloader zero times (so later jobs' coordinator URL hints are
ignored); when no client is cached, a failed provisioning caches nothing
(the state is exactly the original, so the next job retries from
scratch), while a successful one caches exactly the constructed client;
and from any state with a cached client, an entire run of the loop never
calls the downloader again and never changes the state. -/
theorem scanClient_provisioned_once (deps : ScanDeps) :
    (∀ s inp c, s.scanClient = some c →
      (requestAndRunScanJob deps s inp).state = s ∧
      downloadCount (requestAndRunScanJob deps s inp).trace = 0) ∧
    (∀ s inp image e, s.scanClient = none →
      (requestScanJob deps inp.nextOutcome).2 = Except.ok (some image) →
      (downloadScanner deps s image.hubURL).2 = Except.error e →
      (requestAndRunScanJob deps s inp).state = s) ∧
    (∀ s inp image c, s.scanClient = none →
      (requestScanJob deps inp.nextOutcome).2 = Except.ok (some image) →
      (downloadScanner deps s image.hubURL).2 = Except.ok c →
      (requestAndRunScanJob deps s inp).state = { s with scanClient := some c }) ∧
    (∀ evts s c, s.scanClient = some c →
      (runLoop deps evts s).2.1 = s ∧ downloadCount (runLoop deps evts s).1 = 0) := by
  refine ⟨fun s inp c hc => cycle_state_cached deps s inp c hc, ?_, ?_,
    fun evts s c hc => runLoop_cached deps c evts s hc⟩
  · intro s inp image e hc himg hdl
    rw [cycle_provision_fail deps s inp image e hc himg hdl]
  · intro s inp image c hc himg hdl
    rw [cycle_provision_ok deps s inp image c hc himg hdl]

/-- Witness for C2 at concrete inputs: reuse of a cached client, a
failed provisioning caching nothing, a successful provisioning caching
the constructed client, and a whole loop run reusing the cache. -/
theorem scanClient_provisioned_once_witness :
    (cachedState.scanClient = some trivialClient ∧
      (requestAndRunScanJob trivialDeps cachedState goodInp).state = cachedState ∧
      downloadCount (requestAndRunScanJob trivialDeps cachedState goodInp).trace = 0) ∧
    (sampleState.scanClient = none ∧
      (requestScanJob failDeps goodInp.nextOutcome).2 = Except.ok (some sampleImage) ∧
      (downloadScanner failDeps sampleState sampleImage.hubURL).2 =
        Except.error "download failed" ∧
      (requestAndRunScanJob failDeps sampleState goodInp).state = sampleState) ∧
    ((requestScanJob trivialDeps goodInp.nextOutcome).2 = Except.ok (some sampleImage) ∧
      (downloadScanner trivialDeps sampleState sampleImage.hubURL).2 =
        Except.ok trivialClient ∧
      (requestAndRunScanJob trivialDeps sampleState goodInp).state =
        { sampleState with scanClient := some trivialClient }) ∧
    ((runLoop trivialDeps [LoopEvent.tick goodInp] cachedState).2.1 = cachedState ∧
      downloadCount (runLoop trivialDeps [LoopEvent.tick goodInp] cachedState).1 = 0) := by
  have h1 := (scanClient_provisioned_once trivialDeps).1 cachedState goodInp trivialClient rfl
  have h2 := (scanClient_provisioned_once failDeps).2.1 sampleState goodInp sampleImage
    "download failed" rfl rfl rfl
  have h3 := (scanClient_provisioned_once trivialDeps).2.2.1 sampleState goodInp sampleImage
    trivialClient rfl rfl rfl
  have h4 := (scanClient_provisioned_once trivialDeps).2.2.2 [LoopEvent.tick goodInp]
    cachedState trivialClient rfl
  exact ⟨⟨rfl, h1⟩, ⟨rfl, rfl, rfl, h2⟩, ⟨rfl, rfl, h3⟩, h4⟩

/-! ### Provisioning failure drops the job (C3) -/

/-- C3: when provisioning fails for a job, the job is aborted without
any report: the executor is never invoked, zero finished-job POSTs occur
in the cycle's trace, no report value is built, the cycle returns the
provisioning error, the state is unchanged, the loop simply continues
with the remaining events after that tick, and every cycle — in
particular the next tick's — begins by issuing the next-image POST
normally. -/
theorem provision_failure_drops_job (deps : ScanDeps) (s : ScannerState) (inp : CycleInput)
    (image : ImageSpec) (e : String) (rest : List LoopEvent)
    (hc : s.scanClient = none)
    (himg : (requestScanJob deps inp.nextOutcome).2 = Except.ok (some image))
    (hdl : (downloadScanner deps s image.hubURL).2 = Except.error e) :
    (requestAndRunScanJob deps s inp).outcome = LoopOutcome.done (Except.error e) ∧
    (requestAndRunScanJob deps s inp).report = none ∧
    scanCount (requestAndRunScanJob deps s inp).trace = 0 ∧
    finishedPostCount (requestAndRunScanJob deps s inp).trace = 0 ∧
    (requestAndRunScanJob deps s inp).state = s ∧
    runLoop deps (LoopEvent.tick inp :: rest) s =
      ((requestAndRunScanJob deps s inp).trace ++ (runLoop deps rest s).1,
       (runLoop deps rest s).2) ∧
    (∀ inp2, ((requestAndRunScanJob deps s inp2).trace).head? =
      some (Event.post NextImagePath "" "")) := by
  have hkey := cycle_provision_fail deps s inp image e hc himg hdl
  obtain ⟨hr1, hr2, hr3⟩ := requestScanJob_counts deps inp.nextOutcome
  obtain ⟨hd1, hd2, hd3, hd4⟩ := downloadScanner_counts deps s image.hubURL
  refine ⟨by rw [hkey], by rw [hkey], ?_, ?_, by rw [hkey], ?_, fun inp2 => cycle_trace_head deps s inp2⟩
  · rw [hkey]
    simp [scanCount, List.countP_append] at hr2 hd2 ⊢
    exact ⟨hr2, hd2⟩
  · rw [hkey]
    simp [finishedPostCount, List.countP_append] at hr3 hd3 ⊢
    exact ⟨hr3, hd3⟩
  · simp [runLoop, hkey]

/-- Witness for C3 at concrete inputs. -/
theorem provision_failure_drops_job_witness :
    sampleState.scanClient = none ∧
    (requestScanJob failDeps goodInp.nextOutcome).2 = Except.ok (some sampleImage) ∧
    (downloadScanner failDeps sampleState sampleImage.hubURL).2 =
      Except.error "download failed" ∧
    (requestAndRunScanJob failDeps sampleState goodInp).outcome =
      LoopOutcome.done (Except.error "download failed") ∧
    (requestAndRunScanJob failDeps sampleState goodInp).report = none ∧
    scanCount (requestAndRunScanJob failDeps sampleState goodInp).trace = 0 ∧
    finishedPostCount (requestAndRunScanJob failDeps sampleState goodInp).trace = 0 ∧
    (requestAndRunScanJob failDeps sampleState goodInp).state = sampleState ∧
    runLoop failDeps (LoopEvent.tick goodInp :: [LoopEvent.tick goodInp]) sampleState =
      ((requestAndRunScanJob failDeps sampleState goodInp).trace ++
         (runLoop failDeps [LoopEvent.tick goodInp] sampleState).1,
       (runLoop failDeps [LoopEvent.tick goodInp] sampleState).2) ∧
    ((requestAndRunScanJob failDeps sampleState goodInp).trace).head? =
      some (Event.post NextImagePath "" "") := by
  have h := provision_failure_drops_job failDeps sampleState goodInp sampleImage
    "download failed" [LoopEvent.tick goodInp] rfl rfl rfl
  exact ⟨rfl, rfl, rfl, h.1, h.2.1, h.2.2.1, h.2.2.2.1, h.2.2.2.2.1,
    h.2.2.2.2.2.1, h.2.2.2.2.2.2 goodInp⟩

/-! ### The finished-job report's contents (C5) -/

/-- C5 counterexample: an executor failure whose Go error has an empty
`Error()` string produces a report whose error string is empty — the
claim that a scan-executor failure always yields a non-empty error
string is false.  The first conjunct shows the scan call did fail (a
non-nil error); the second shows the resulting report carries the empty
string, indistinguishable from success. -/
theorem scan_failure_empty_error_cex :
    emptyMsgClient.scan (jobOf sampleImage) = some "" ∧
    (requestAndRunScanJob trivialDeps emptyMsgState goodInp).report =
      some ⟨"", sampleImage⟩ := by
  exact ⟨rfl, rfl⟩

/-- C5 (amended): for every executed job — whether the executor was
already cached or was provisioned by this job — the report pairs the
requested ImageSpec with exactly the executor error's message string:
the message itself on failure (non-empty precisely when the error's
message is non-empty), and the empty string on success. -/
theorem scan_report_spec (deps : ScanDeps) (s : ScannerState) (inp : CycleInput)
    (image : ImageSpec) (c : ScanClientInterface)
    (hclient : s.scanClient = some c ∨
      (s.scanClient = none ∧ (downloadScanner deps s image.hubURL).2 = Except.ok c))
    (himg : (requestScanJob deps inp.nextOutcome).2 = Except.ok (some image)) :
    (requestAndRunScanJob deps s inp).report =
      some ⟨errString (c.scan (jobOf image)), image⟩ ∧
    (∀ msg, c.scan (jobOf image) = some msg →
      (requestAndRunScanJob deps s inp).report = some ⟨msg, image⟩) ∧
    (c.scan (jobOf image) = none →
      (requestAndRunScanJob deps s inp).report = some ⟨"", image⟩) := by
  have hrep : (requestAndRunScanJob deps s inp).report =
      some ⟨errString (c.scan (jobOf image)), image⟩ := by
    rcases hclient with hc | ⟨hc, hdl⟩
    · rw [cycle_cached deps s inp image c hc himg]
    · rw [cycle_provision_ok deps s inp image c hc himg hdl]
  refine ⟨hrep, ?_, ?_⟩
  · intro msg hmsg
    rw [hrep, hmsg]
    rfl
  · intro hnone
    rw [hrep, hnone]
    rfl

/-- Witness for C5's amended theorem: a failing executor yields the
error's message with the requested spec; a succeeding one yields the
empty string with the requested spec. -/
theorem scan_report_spec_witness :
    boomState.scanClient = some boomClient ∧
    (requestScanJob trivialDeps goodInp.nextOutcome).2 = Except.ok (some sampleImage) ∧
    boomClient.scan (jobOf sampleImage) = some "boom" ∧
    (requestAndRunScanJob trivialDeps boomState goodInp).report =
      some ⟨"boom", sampleImage⟩ ∧
    trivialClient.scan (jobOf sampleImage) = none ∧
    (requestAndRunScanJob trivialDeps cachedState goodInp).report =
      some ⟨"", sampleImage⟩ := by
  have hfail := (scan_report_spec trivialDeps boomState goodInp sampleImage boomClient
    (Or.inl rfl) rfl).2.1 "boom" rfl
  have hok := (scan_report_spec trivialDeps cachedState goodInp sampleImage trivialClient
    (Or.inl rfl) rfl).2.2 rfl
  exact ⟨rfl, rfl, rfl, hfail, rfl, hok⟩

/-! ### Cancellation and loop termination (C7) -/

/-- C7: a stop signal observed while idle ends the loop at once — no
further events are consumed, no events at all (hence no network
activity) are emitted, and the state is unchanged; once a tick has been
observed, the cycle runs to completion whatever its outcome — the loop
emits that job's entire trace, including its reporting, and only then
looks at the remaining events (so a stop queued right behind the tick
cannot interrupt the job, and a cycle error never exits the loop); and
the loop ends in the stopped status only if a stop signal was among the
observed events. -/
theorem polling_loop_cancellation (deps : ScanDeps) :
    (∀ s rest, runLoop deps (LoopEvent.stop :: rest) s = ([], s, LoopStatus.stopped)) ∧
    (∀ s inp rest r, (requestAndRunScanJob deps s inp).outcome = LoopOutcome.done r →
      runLoop deps (LoopEvent.tick inp :: rest) s =
        ((requestAndRunScanJob deps s inp).trace ++
           (runLoop deps rest (requestAndRunScanJob deps s inp).state).1,
         (runLoop deps rest (requestAndRunScanJob deps s inp).state).2)) ∧
    (∀ evts s, (runLoop deps evts s).2.2 = LoopStatus.stopped → LoopEvent.stop ∈ evts) := by
  refine ⟨fun s rest => rfl, ?_, ?_⟩
  · intro s inp rest r h
    simp [runLoop, h]
  · intro evts
    induction evts with
    | nil => intro s h; simp [runLoop] at h
    | cons ev rest ih =>
        intro s h
        cases ev with
        | stop => simp
        | tick inp =>
            cases hout : (requestAndRunScanJob deps s inp).outcome with
            | stillLooping => simp [runLoop, hout] at h
            | done r =>
                simp only [runLoop, hout] at h
                exact List.mem_cons_of_mem _ (ih (requestAndRunScanJob deps s inp).state h)

/-- Witness for C7 at concrete inputs: a stop as the first event, a tick
followed by a stop, and a stopped run containing a stop. -/
theorem polling_loop_cancellation_witness :
    runLoop trivialDeps (LoopEvent.stop :: []) sampleState =
      ([], sampleState, LoopStatus.stopped) ∧
    (requestAndRunScanJob trivialDeps sampleState goodInp).outcome =
      LoopOutcome.done (Except.ok ()) ∧
    runLoop trivialDeps (LoopEvent.tick goodInp :: [LoopEvent.stop]) sampleState =
      ((requestAndRunScanJob trivialDeps sampleState goodInp).trace ++
         (runLoop trivialDeps [LoopEvent.stop]
           (requestAndRunScanJob trivialDeps sampleState goodInp).state).1,
       (runLoop trivialDeps [LoopEvent.stop]
         (requestAndRunScanJob trivialDeps sampleState goodInp).state).2) ∧
    (runLoop trivialDeps [LoopEvent.stop] sampleState).2.2 = LoopStatus.stopped ∧
    LoopEvent.stop ∈ [LoopEvent.stop] := by
  have h := polling_loop_cancellation trivialDeps
  exact ⟨h.1 sampleState [], rfl,
    h.2.1 sampleState goodInp [LoopEvent.stop] (Except.ok ()) rfl, rfl,
    h.2.2 [LoopEvent.stop] sampleState rfl⟩

/-! ### The credential is read once (C10) -/

/-- C10: when `NewScanner` succeeds, the password it captured is exactly
the value the credential environment variable held at construction time,
and every later provisioning attempt — any run of the polling loop, with
any collaborators and any network behaviour — hands the downloader
exactly that captured value, the `hubPassword` field never changing.
The loop itself takes no environment argument at all (the code never
reads the environment after startup), so later changes to the variable
cannot influence any download. -/
theorem credential_read_once (env : Env) (config : Config) (env' : Env) (s : ScannerState)
    (h : NewScanner env config = (env', Except.ok s)) :
    env config.hub.passwordEnvVar = some s.hubPassword ∧
    (∀ deps evts pw, pw ∈ downloadPasswords (runLoop deps evts s).1 →
      pw = s.hubPassword) ∧
    (∀ deps evts, (((runLoop deps evts s).2.1)).hubPassword = s.hubPassword) := by
  refine ⟨?_, fun deps evts pw hpw => runLoop_passwords deps evts s pw hpw,
    fun deps evts => runLoop_hubPassword deps evts s⟩
  cases henv : env config.hub.passwordEnvVar with
  | none => simp [NewScanner, henv] at h
  | some pw =>
      simp [NewScanner, henv] at h
      rw [← h.2]

/-- Witness for C10 at concrete inputs: the constructed scanner holds
the environment's value, a loop run whose one cycle provisions passes
exactly that value to the downloader, and the field is preserved. -/
theorem credential_read_once_witness :
    sampleEnv sampleConfig.hub.passwordEnvVar = some constructedState.hubPassword ∧
    "pw" ∈ downloadPasswords
      (runLoop trivialDeps [LoopEvent.tick goodInp] constructedState).1 ∧
    "pw" = constructedState.hubPassword ∧
    (((runLoop trivialDeps [LoopEvent.tick goodInp] constructedState).2.1)).hubPassword =
      constructedState.hubPassword := by
  have h := credential_read_once sampleEnv sampleConfig
    (setEnv sampleEnv "BD_HUB_PASSWORD" "pw") constructedState rfl
  have hmem : "pw" ∈ downloadPasswords
      (runLoop trivialDeps [LoopEvent.tick goodInp] constructedState).1 := by decide
  exact ⟨h.1, hmem, h.2.1 trivialDeps [LoopEvent.tick goodInp] "pw" hmem,
    h.2.2 trivialDeps [LoopEvent.tick goodInp]⟩

end PerceptorScanner
